import Mathlib

/-!
Verification of the JetsonScope telemetry/control daemon specification.

This file shallowly embeds the Rust sources (`src/parser.rs`, `src/control.rs`,
`src/health.rs`, `src/collector.rs`, `src/bin/jetsonscoped.rs`, `src/protocol.rs`)
as executable Lean definitions and settles the spec claims against them.

Strings are processed as `List Char`.  The Rust code drives its tokenizer with
the `regex` crate (leftmost-first match semantics); each pre-compiled pattern is
embedded here as a hand-translated backtracking matcher built from a small set
of combinators that implement exactly the greedy/lazy preference order of the
original expression.  `HashMap` values are embedded as association lists with
the corresponding insert semantics (`entry().or_insert_with` = first wins,
`insert` = last wins); only lookup is ever observed, so iteration order is
irrelevant.  Floating-point values (`f64`/`f32`) are embedded as `Rat`; every
numeric literal the claims exercise is an integer far below 2^53, where `f64`
arithmetic is exact.
-/

namespace JetsonScope

/-- Word character for the regex `\w` class and `\b` boundaries (ASCII view of
the Unicode class; every input the claims exercise is ASCII). -/
def isWordChar (c : Char) : Bool := c.isAlphanum || c == '_'

/-- Source: `[A-Z0-9_]` character class. -/
def isEngineNameChar (c : Char) : Bool :=
  (('A' ≤ c && c ≤ 'Z') : Bool) || c.isDigit || c == '_'

/-- Source: `[0-9%@]` character class (the VALS value class). -/
def isValChar (c : Char) : Bool := c.isDigit || c == '%' || c == '@'

/-- Source: `[0-9.]` character class. -/
def isDigitDot (c : Char) : Bool := c.isDigit || c == '.'

/-- Source: `\b`: true iff exactly one of the two neighbouring characters is a word
character (start/end of input count as non-word). -/
def atBoundary (prev : Option Char) (next : Option Char) : Bool :=
  (prev.elim false isWordChar) != (next.elim false isWordChar)

/-- Continuation type for the backtracking matchers: receives the character
just before the remaining input (for `\b`) and the remaining input. -/
def KCont (α : Type) : Type := Option Char → List Char → Option α

/-- Match a single literal character. -/
def litC (c : Char) (k : KCont α) : KCont α := fun _ s =>
  match s with
  | x :: rest => if x == c then k (some x) rest else none
  | [] => none

/-- Match a literal character sequence. -/
def litS : List Char → KCont α → KCont α
  | [], k => k
  | c :: cs, k => litC c (litS cs k)

/-- Greedy optional literal character (`c?`): try consuming first. -/
def optC (c : Char) (k : KCont α) : KCont α := fun prev s =>
  match s with
  | x :: rest => if x == c then (k (some x) rest).orElse (fun _ => k prev s) else k prev s
  | [] => k prev []

/-- Greedy optional class character (`(C?)` with capture): try consuming first. -/
def clsOpt (C : Char → Bool) (k : Option Char → KCont α) : KCont α := fun prev s =>
  match s with
  | x :: rest =>
      if C x then (k (some x) (some x) rest).orElse (fun _ => k none prev s)
      else k none prev s
  | [] => k none prev []

/-- Match exactly one class character (`(C)` with capture). -/
def clsOne (C : Char → Bool) (k : Char → KCont α) : KCont α := fun _ s =>
  match s with
  | x :: rest => if C x then k x (some x) rest else none
  | [] => none

/-- Backtracking worker for greedy `C+`: `rrun` is the still-claimed run in
reverse; on failure of the continuation, give back one character at a time. -/
def clsPlusGo (k : List Char → KCont α) : List Char → List Char → Option α
  | [], _ => none
  | c :: rtail, rest =>
      match k (c :: rtail).reverse (some c) rest with
      | some a => some a
      | none => clsPlusGo k rtail (c :: rest)

/-- Greedy `C+` with capture of the consumed run (longest first, then give
back one character at a time — the regex backtracking order). -/
def clsPlus (C : Char → Bool) (k : List Char → KCont α) : KCont α := fun _ s =>
  let run := s.takeWhile C
  clsPlusGo k run.reverse (s.drop run.length)

/-- Source: `\b` assertion. -/
def bnd (k : KCont α) : KCont α := fun prev s =>
  if atBoundary prev s.head? then k prev s else none

/-- One scan step driver for `captures_iter`: try the anchored matcher at every
position from left to right; on a match, emit its captures and resume after it
(matches are non-overlapping and every embedded pattern consumes at least one
character, so fuel `s.length` suffices). -/
def scanAux (matchAt : Option Char → List Char → Option (γ × Option Char × List Char)) :
    Nat → Option Char → List Char → List γ
  | 0, _, _ => []
  | _ + 1, _, [] => []
  | n + 1, prev, c :: rest =>
      match matchAt prev (c :: rest) with
      | some (cap, prevNext, after) => cap :: scanAux matchAt n prevNext after
      | none => scanAux matchAt n (some c) rest

/-- Source: `Regex.captures_iter`: all successive non-overlapping leftmost matches. -/
def scanAll (matchAt : Option Char → List Char → Option (γ × Option Char × List Char))
    (s : List Char) : List γ :=
  scanAux matchAt s.length none s

/-- Source: `Regex.captures`: the first (leftmost) match only. -/
def findFirstAux (matchAt : Option Char → List Char → Option (γ × Option Char × List Char)) :
    Nat → Option Char → List Char → Option γ
  | 0, _, _ => none
  | _ + 1, _, [] => none
  | n + 1, prev, c :: rest =>
      match matchAt prev (c :: rest) with
      | some (cap, _, _) => some cap
      | none => findFirstAux matchAt n (some c) rest

def findFirst (matchAt : Option Char → List Char → Option (γ × Option Char × List Char))
    (s : List Char) : Option γ :=
  findFirstAux matchAt s.length none s

/-- Digits of a captured `\d+` group as a natural number. -/
def natOfDigits (ds : List Char) : Nat :=
  ds.foldl (fun acc c => acc * 10 + (c.toNat - '0'.toNat)) 0

/-- Rust `str::parse::<uN>()` on an arbitrary string: optional leading `+`,
then at least one ASCII digit, and the value must fit in `N` bits. -/
def parseUIntCore (bits : Nat) (s : List Char) : Option Nat :=
  let body := match s with
    | '+' :: rest => rest
    | other => other
  if body.isEmpty then none
  else if body.all Char.isDigit then
    let n := natOfDigits body
    if n < 2 ^ bits then some n else none
  else none

def parseU32 (s : String) : Option Nat := parseUIntCore 32 s.toList

def parseU8 (s : String) : Option Nat := parseUIntCore 8 s.toList

/-- Rust `str::parse::<u64>().unwrap_or_default()` on a `\d+` capture. -/
def parseU64D (ds : List Char) : Nat :=
  (parseUIntCore 64 ds).getD 0

/-- Rust `str::parse::<u32>().ok()` on a `\d+` capture. -/
def parseU32D (ds : List Char) : Option Nat := parseUIntCore 32 ds

/-- An unsigned decimal value `mant / 10^fexp`: the exact number denoted by a
`[0-9.]+` capture.  The Rust code parses these captures into `f64`/`f32`; the
binary value is exact for every number the claims exercise (integers below
2^53), and no claim observes a rounded digit string. -/
structure DecVal where
  mant : Nat
  fexp : Nat
  deriving DecidableEq

/-- Decimal string (digits and dots, as captured by `[0-9.]+`) to its exact
value, mirroring the domain of `f64::from_str` on such captures: at most one
dot, at least one digit. -/
def decimalToVal (s : List Char) : Option DecVal :=
  match s.splitOn '.' with
  | [intPart] =>
      if intPart.isEmpty || !intPart.all Char.isDigit then none
      else some { mant := natOfDigits intPart, fexp := 0 }
  | [intPart, fracPart] =>
      if (intPart.isEmpty && fracPart.isEmpty) then none
      else if !intPart.all Char.isDigit || !fracPart.all Char.isDigit then none
      else some { mant := natOfDigits (intPart ++ fracPart), fexp := fracPart.length }
  | _ => none

/-- Multiplication by `1_000.0` (exact on these values). -/
def DecVal.times1000 (v : DecVal) : DecVal := { v with mant := v.mant * 1000 }

/-- Rust float-to-`u32` `as` cast on a non-negative value: truncate toward
zero, saturating at the type bound (inputs here are never NaN). -/
def f64AsU32 (v : DecVal) : Nat := min (v.mant / 10 ^ v.fexp) 4294967295

/-- Rust `str::split_once(c)`: split at the first occurrence of `c`. -/
def splitOnceAux (c : Char) (pre : List Char) : List Char → Option (List Char × List Char)
  | [] => none
  | x :: rest => if x == c then some (pre.reverse, rest) else splitOnceAux c (x :: pre) rest

def splitOnce (s : List Char) (c : Char) : Option (List Char × List Char) :=
  splitOnceAux c [] s

/-- Rust `str::trim_end_matches(c)`: remove every trailing occurrence. -/
def trimEndMatchesChar (s : List Char) (c : Char) : List Char :=
  (s.reverse.dropWhile (· == c)).reverse

/-- Rust `str::trim_matches(['[', ']'])`: remove the bracket characters from
both ends, repeatedly. -/
def trimMatchesBr (s : List Char) : List Char :=
  ((s.dropWhile isBr).reverse.dropWhile isBr).reverse
where isBr (c : Char) : Bool := c == '[' || c == ']'

/-- Rust `str::strip_suffix(c)`. -/
def stripSuffixChar (s : List Char) (c : Char) : Option (List Char) :=
  match s.reverse with
  | x :: rest => if x == c then some rest.reverse else none
  | [] => none

/-- Rust `str::ends_with(suffix)` (list-based view of the UTF-8 test). -/
def endsWithStr (s suffix : String) : Bool :=
  suffix.toList.isSuffixOf s.toList

/-- Drop the last `n` characters (the `strip_suffix` result once the suffix
is known to be present). -/
def dropSuffixN (s : String) (n : Nat) : String :=
  String.mk (s.toList.take (s.toList.length - n))

/-- Rust `str::trim` (ASCII whitespace view of the Unicode trim). -/
def trimStr (s : String) : String :=
  String.mk (((s.toList.dropWhile Char.isWhitespace).reverse.dropWhile
    Char.isWhitespace).reverse)

/-! ## `src/parser.rs` — data model -/

/-- Source: `SizeUnit` (parser.rs). -/
inductive SizeUnit where
  | KB
  | MB
  deriving DecidableEq

instance : Inhabited SizeUnit := ⟨SizeUnit.MB⟩

/-- Source: `SizeUnit::from_suffix` (parser.rs). -/
def SizeUnit.from_suffix (raw : String) : Option SizeUnit :=
  match raw with
  | "k" | "K" => some SizeUnit.KB
  | "M" | "m" => some SizeUnit.MB
  | _ => none

/-- Source: `SizeUnit::to_bytes` — `u64::saturating_mul` by 1024 or 1024². -/
def SizeUnit.to_bytes (u : SizeUnit) (value : Nat) : Nat :=
  match u with
  | SizeUnit.KB => min (value * 1024) (2 ^ 64 - 1)
  | SizeUnit.MB => min (value * (1024 * 1024)) (2 ^ 64 - 1)

inductive LargestFreeBlock where
  | Blocks (count : Nat) (size_bytes : Nat)
  | Size (size_bytes : Nat)
  deriving DecidableEq

structure MemoryStat where
  used_bytes : Nat
  total_bytes : Nat
  unit : SizeUnit
  largest_free_block : Option LargestFreeBlock
  deriving DecidableEq

structure SwapStat where
  used_bytes : Nat
  total_bytes : Nat
  cached_bytes : Option Nat
  unit : SizeUnit
  deriving DecidableEq

structure IramStat where
  used_bytes : Nat
  total_bytes : Nat
  lfb_bytes : Option Nat
  unit : SizeUnit
  deriving DecidableEq

structure CpuCore where
  load_percent : Option Nat
  freq_mhz : Option Nat
  deriving DecidableEq

instance : Inhabited CpuCore := ⟨⟨none, none⟩⟩

structure EngineStat where
  usage_percent : Option Nat
  freq_mhz : Option Nat
  raw_value : Option Nat
  deriving DecidableEq

structure PowerRail where
  current_mw : Nat
  average_mw : Nat
  deriving DecidableEq

structure MtsStat where
  fg_percent : Nat
  bg_percent : Nat
  deriving DecidableEq

/-- A signed decimal value (the exact number denoted by a `-?[0-9.]+`
temperature capture, parsed as `f32` by the Rust code). -/
structure TempVal where
  neg : Bool
  mant : Nat
  fexp : Nat
  deriving DecidableEq

/-- Source: `TegraStats` (parser.rs); the `HashMap`s are embedded as association
lists (`engines` uses first-wins insertion, `temps`/`power` last-wins). -/
structure TegraStats where
  timestamp : Option String
  ram : Option MemoryStat
  swap : Option SwapStat
  iram : Option IramStat
  mts : Option MtsStat
  cpus : List CpuCore
  engines : List (String × EngineStat)
  temps : List (String × TempVal)
  power : List (String × PowerRail)
  raw : String
  deriving DecidableEq

/-! ## `src/parser.rs` — the pre-compiled regexes as anchored matchers -/

/-- Consume exactly `n` digits (`\d{n}`). -/
def digitN : Nat → List Char → Option (List Char × List Char)
  | 0, s => some ([], s)
  | n + 1, c :: rest =>
      if c.isDigit then (digitN n rest).map (fun p => (c :: p.1, p.2)) else none
  | _ + 1, [] => none

/-- Source: `DATE_RE`: `\d{2}-\d{2}-\d{4} \d{2}:\d{2}:\d{2}`, anchored at the head. -/
def dateMatchAt (s : List Char) : Option (List Char × List Char) := do
  let (d1, s) ← digitN 2 s
  let s ← match s with | '-' :: r => some r | _ => none
  let (d2, s) ← digitN 2 s
  let s ← match s with | '-' :: r => some r | _ => none
  let (d3, s) ← digitN 4 s
  let s ← match s with | ' ' :: r => some r | _ => none
  let (t1, s) ← digitN 2 s
  let s ← match s with | ':' :: r => some r | _ => none
  let (t2, s) ← digitN 2 s
  let s ← match s with | ':' :: r => some r | _ => none
  let (t3, s) ← digitN 2 s
  some (d1 ++ '-' :: d2 ++ '-' :: d3 ++ ' ' :: t1 ++ ':' :: t2 ++ ':' :: t3, s)

/-- Source: `DATE_RE.find`: leftmost match, returned as (before, match, after). -/
def dateFindAux : Nat → List Char → List Char → Option (List Char × List Char × List Char)
  | 0, _, _ => none
  | _ + 1, _, [] => none
  | n + 1, pre, c :: rest =>
      match dateMatchAt (c :: rest) with
      | some (m, after) => some (pre.reverse, m, after)
      | none => dateFindAux n (c :: pre) rest

def dateFind (s : List Char) : Option (List Char × List Char × List Char) :=
  dateFindAux s.length [] s

structure RamCaps where
  used : List Char
  total : List Char
  unit : Char
  lfbCount : List Char
  lfbSize : List Char
  lfbUnit : Char

/-- Source: `RAM_RE`: `RAM (\d+)/(\d+)(\w)B ?\(lfb (\d+)x(\d+)(\w)B\)`. -/
def ramMatchAt : Option Char → List Char → Option (RamCaps × Option Char × List Char) :=
  litS "RAM ".toList <|
    clsPlus Char.isDigit fun used =>
      litC '/' <| clsPlus Char.isDigit fun total =>
        clsOne isWordChar fun unit =>
          litC 'B' <| optC ' ' <| litS "(lfb ".toList <|
            clsPlus Char.isDigit fun cnt =>
              litC 'x' <| clsPlus Char.isDigit fun sz =>
                clsOne isWordChar fun u2 =>
                  litC 'B' <| litC ')' <| fun prev s =>
                    some (⟨used, total, unit, cnt, sz, u2⟩, prev, s)

structure SwapCaps where
  used : List Char
  total : List Char
  unit : Char
  cached : List Char
  cachedUnit : Char

/-- Source: `SWAP_RE`: `SWAP (\d+)/(\d+)(\w)B ?\(cached (\d+)(\w)B\)`. -/
def swapMatchAt : Option Char → List Char → Option (SwapCaps × Option Char × List Char) :=
  litS "SWAP ".toList <|
    clsPlus Char.isDigit fun used =>
      litC '/' <| clsPlus Char.isDigit fun total =>
        clsOne isWordChar fun unit =>
          litC 'B' <| optC ' ' <| litS "(cached ".toList <|
            clsPlus Char.isDigit fun cached =>
              clsOne isWordChar fun u2 =>
                litC 'B' <| litC ')' <| fun prev s =>
                  some (⟨used, total, unit, cached, u2⟩, prev, s)

structure IramCaps where
  used : List Char
  total : List Char
  unit : Char
  lfb : List Char
  lfbUnit : Char

/-- Source: `IRAM_RE`: `IRAM (\d+)/(\d+)(\w)B ?\(lfb (\d+)(\w)B\)`. -/
def iramMatchAt : Option Char → List Char → Option (IramCaps × Option Char × List Char) :=
  litS "IRAM ".toList <|
    clsPlus Char.isDigit fun used =>
      litC '/' <| clsPlus Char.isDigit fun total =>
        clsOne isWordChar fun unit =>
          litC 'B' <| optC ' ' <| litS "(lfb ".toList <|
            clsPlus Char.isDigit fun lfb =>
              clsOne isWordChar fun u2 =>
                litC 'B' <| litC ')' <| fun prev s =>
                  some (⟨used, total, unit, lfb, u2⟩, prev, s)

/-- Source: `MTS_RE`: `MTS fg (\d+)% bg (\d+)%`. -/
def mtsMatchAt : Option Char → List Char → Option ((List Char × List Char) × Option Char × List Char) :=
  litS "MTS fg ".toList <|
    clsPlus Char.isDigit fun fg =>
      litS "% bg ".toList <| clsPlus Char.isDigit fun bg =>
        litC '%' <| fun prev s => some ((fg, bg), prev, s)

/-- The lazy `(.*?)\]` tail of `CPU_RE`: everything up to the first `]`,
failing on a newline (regex `.` does not match `\n`). -/
def lazyToRBracket : List Char → Option (List Char × List Char)
  | [] => none
  | ']' :: rest => some ([], rest)
  | '\n' :: _ => none
  | c :: rest => (lazyToRBracket rest).map (fun p => (c :: p.1, p.2))

/-- Source: `CPU_RE`: `CPU \[(.*?)\]`. -/
def cpuMatchAt : Option Char → List Char → Option (List Char × Option Char × List Char) :=
  litS "CPU [".toList <| fun _ s =>
    (lazyToRBracket s).map fun p => (p.1, some ']', p.2)

/-- The optional suffix `(?:@\[\d+\]|@\d+)?` of `VALS_RE` (greedy, first
alternative preferred, then the second, then empty). -/
def valsSuffix (k : List Char → KCont α) : KCont α := fun prev s =>
  (litC '@' (litC '[' (clsPlus Char.isDigit fun ds =>
      litC ']' (k ('@' :: '[' :: (ds ++ [']'])) ))) prev s).orElse fun _ =>
    (litC '@' (clsPlus Char.isDigit fun ds => k ('@' :: ds)) prev s).orElse fun _ =>
      k [] prev s

structure ValsCaps where
  name : List Char
  value : List Char

/-- Source: `VALS_RE`: `\b([A-Z0-9_]+) ([0-9%@]+(?:@\[\d+\]|@\d+)?)\b`. -/
def valsMatchAt : Option Char → List Char → Option (ValsCaps × Option Char × List Char) :=
  bnd <| clsPlus isEngineNameChar fun name =>
    litC ' ' <| clsPlus isValChar fun base =>
      valsSuffix fun suf =>
        bnd <| fun prev s => some (⟨name, base ++ suf⟩, prev, s)

/-- Source: `ENGINE_OFF_RE`: `\b([A-Z0-9_]+) off\b`. -/
def offMatchAt : Option Char → List Char → Option (List Char × Option Char × List Char) :=
  bnd <| clsPlus isEngineNameChar fun name =>
    litS " off".toList <| bnd <| fun prev s => some (name, prev, s)

structure BracketCaps where
  name : List Char
  usage : List Char
  freq : List Char

/-- Source: `BRACKET_FREQ_RE`: `([A-Z0-9_]+) ([0-9]+)%@\[(\d+)\]`. -/
def bracketMatchAt : Option Char → List Char → Option (BracketCaps × Option Char × List Char) :=
  clsPlus isEngineNameChar fun name =>
    litC ' ' <| clsPlus Char.isDigit fun usage =>
      litS "%@[".toList <| clsPlus Char.isDigit fun freq =>
        litC ']' <| fun prev s => some (⟨name, usage, freq⟩, prev, s)

structure UtilCaps where
  name : List Char
  usage : List Char

/-- Source: `UTIL_ONLY_RE`: `([A-Z0-9_]+_UTIL) ([0-9]+)%`. -/
def utilMatchAt : Option Char → List Char → Option (UtilCaps × Option Char × List Char) :=
  clsPlus isEngineNameChar fun base =>
    litS "_UTIL ".toList <| clsPlus Char.isDigit fun usage =>
      litC '%' <| fun prev s => some (⟨base ++ "_UTIL".toList, usage⟩, prev, s)

/-- Source: `VAL_FREQ_RE`: `(\d+)%@(\d+)`. -/
def valFreqMatchAt : Option Char → List Char → Option ((List Char × List Char) × Option Char × List Char) :=
  clsPlus Char.isDigit fun l =>
    litC '%' <| litC '@' <| clsPlus Char.isDigit fun f =>
      fun prev s => some ((l, f), prev, s)

/-- The optional sign `-?` of `TEMP_RE` (greedy, with capture). -/
def optDash (k : List Char → KCont α) : KCont α := fun prev s =>
  match s with
  | '-' :: rest => (k ['-'] (some '-') rest).orElse fun _ => k [] prev s
  | _ => k [] prev s

structure TempCaps where
  name : List Char
  value : List Char

/-- Source: `TEMP_RE`: `\b(\w+)@(-?[0-9.]+)C\b`. -/
def tempMatchAt : Option Char → List Char → Option (TempCaps × Option Char × List Char) :=
  bnd <| clsPlus isWordChar fun name =>
    litC '@' <| optDash fun sgn =>
      clsPlus isDigitDot fun num =>
        litC 'C' <| bnd <| fun prev s => some (⟨name, sgn ++ num⟩, prev, s)

structure WattCaps where
  name : List Char
  cur : List Char
  curUnit : Option Char
  avg : List Char
  avgUnit : Option Char

/-- Source: `WATT_RE`: `\b(\w+) ([0-9.]+)(\w?)W?/([0-9.]+)(\w?)W?\b`. -/
def wattMatchAt : Option Char → List Char → Option (WattCaps × Option Char × List Char) :=
  bnd <| clsPlus isWordChar fun name =>
    litC ' ' <| clsPlus isDigitDot fun cur =>
      clsOpt isWordChar fun curU =>
        optC 'W' <| litC '/' <| clsPlus isDigitDot fun avg =>
          clsOpt isWordChar fun avgU =>
            optC 'W' <| bnd <| fun prev s =>
              some (⟨name, cur, curU, avg, avgU⟩, prev, s)

/-! ## `src/parser.rs` — the parse functions -/

/-- Source: `parse_size_unit` (parser.rs): suffix capture to unit, defaulting to MB. -/
def parse_size_unit (raw : String) : SizeUnit :=
  (SizeUnit.from_suffix raw).getD SizeUnit.MB

/-- Source: `parse_ram` (parser.rs). -/
def parse_ram (text : List Char) : Option MemoryStat :=
  (findFirst ramMatchAt text).map fun caps =>
    let unit := parse_size_unit (String.mk [caps.unit])
    let used := parseU64D caps.used
    let total := parseU64D caps.total
    let lfb_count := parseU64D caps.lfbCount
    let lfb_size := parseU64D caps.lfbSize
    let lfb_unit := parse_size_unit (String.mk [caps.lfbUnit])
    { used_bytes := unit.to_bytes used
      total_bytes := unit.to_bytes total
      unit := unit
      largest_free_block := some (LargestFreeBlock.Blocks lfb_count (lfb_unit.to_bytes lfb_size)) }

/-- Source: `parse_swap` (parser.rs). -/
def parse_swap (text : List Char) : Option SwapStat :=
  (findFirst swapMatchAt text).map fun caps =>
    let unit := parse_size_unit (String.mk [caps.unit])
    let cached_unit := parse_size_unit (String.mk [caps.cachedUnit])
    { used_bytes := unit.to_bytes (parseU64D caps.used)
      total_bytes := unit.to_bytes (parseU64D caps.total)
      cached_bytes := some (cached_unit.to_bytes (parseU64D caps.cached))
      unit := unit }

/-- Source: `parse_iram` (parser.rs). -/
def parse_iram (text : List Char) : Option IramStat :=
  (findFirst iramMatchAt text).map fun caps =>
    let unit := parse_size_unit (String.mk [caps.unit])
    let lfb_unit := parse_size_unit (String.mk [caps.lfbUnit])
    { used_bytes := unit.to_bytes (parseU64D caps.used)
      total_bytes := unit.to_bytes (parseU64D caps.total)
      lfb_bytes := some (lfb_unit.to_bytes (parseU64D caps.lfb))
      unit := unit }

/-- Source: `parse_mts` (parser.rs); `parse::<u32>().unwrap_or_default()`. -/
def parse_mts (text : List Char) : Option MtsStat :=
  (findFirst mtsMatchAt text).map fun caps =>
    { fg_percent := (parseU32D caps.1).getD 0
      bg_percent := (parseU32D caps.2).getD 0 }

/-- Source: `parse_val_freq` (parser.rs). -/
def parse_val_freq (val : List Char) : EngineStat :=
  match splitOnce val '@' with
  | some (usage_part, freq_part) =>
      let usage := parseUIntCore 32 (trimEndMatchesChar usage_part '%')
      let freq_clean := trimMatchesBr freq_part
      let freq := parseUIntCore 32 freq_clean
      { usage_percent := usage, freq_mhz := freq, raw_value := none }
  | none =>
    match findFirst valFreqMatchAt val with
    | some (u, f) =>
        { usage_percent := parseU32D u, freq_mhz := parseU32D f, raw_value := none }
    | none =>
      match stripSuffixChar val '%' with
      | some stripped =>
          { usage_percent := parseUIntCore 32 stripped, freq_mhz := none, raw_value := none }
      | none =>
          { usage_percent := none
            freq_mhz := parseUIntCore 32 val
            raw_value := parseUIntCore 32 val }

/-- The names skipped by every engine recognizer:
`matches!(name, "RAM" | "SWAP" | "IRAM" | "CPU" | "MTS")`. -/
def skipName (name : String) : Bool :=
  name == "RAM" || name == "SWAP" || name == "IRAM" || name == "CPU" || name == "MTS"

/-- Source: `name.strip_suffix("_FREQ")`, keeping the name when absent. -/
def stripFreqSuffix (name : String) : String :=
  if endsWithStr name "_FREQ" then dropSuffixN name 5 else name

/-- Entries contributed by the `BRACKET_FREQ_RE` loop of `parse_engines`,
in iteration order. -/
def bracketEntries (text : List Char) : List (String × EngineStat) :=
  (scanAll bracketMatchAt text).filterMap fun caps =>
    let name := stripFreqSuffix (String.mk caps.name)
    if skipName name then none
    else some (name, { usage_percent := parseU32D caps.usage
                       freq_mhz := parseU32D caps.freq
                       raw_value := none })

/-- Entries contributed by the `VALS_RE` loop of `parse_engines`
(`_UTIL`-suffixed names are skipped there). -/
def valsEntries (text : List Char) : List (String × EngineStat) :=
  (scanAll valsMatchAt text).filterMap fun caps =>
    let name := stripFreqSuffix (String.mk caps.name)
    if skipName name then none
    else if endsWithStr name "_UTIL" then none
    else some (name, parse_val_freq caps.value)

/-- Entries contributed by the `UTIL_ONLY_RE` loop: the `*_UTIL` name itself,
then the stripped base name (both with `usage_percent` only). -/
def utilEntries (text : List Char) : List (String × EngineStat) :=
  (scanAll utilMatchAt text).flatMap fun caps =>
    let name := String.mk caps.name
    if skipName name then []
    else
      let stat : EngineStat :=
        { usage_percent := parseU32D caps.usage, freq_mhz := none, raw_value := none }
      (name, stat) ::
        (if endsWithStr name "_UTIL" then [(dropSuffixN name 5, stat)] else [])

/-- Entries contributed by the `ENGINE_OFF_RE` loop (`usage_percent = 0`;
note: the captured name is inserted without `_FREQ` stripping). -/
def offEntries (text : List Char) : List (String × EngineStat) :=
  (scanAll offMatchAt text).filterMap fun nameChars =>
    let name := String.mk nameChars
    if skipName name then none
    else some (name, { usage_percent := some 0, freq_mhz := none, raw_value := none })

/-- Source: `HashMap::entry(name).or_insert_with(...)`: insert only when absent. -/
def insertIfAbsent (m : List (String × EngineStat)) (kv : String × EngineStat) :
    List (String × EngineStat) :=
  if (m.lookup kv.1).isSome then m else m ++ [kv]

/-- Folding the four recognizer loops, in program order, over an initially
empty map with first-wins insertion. -/
def buildEngines (l : List (String × EngineStat)) : List (String × EngineStat) :=
  l.foldl insertIfAbsent []

/-- The concatenated contributions of the four recognizer loops, in the order
they run in `parse_engines`: bracketed-freq, general, `_UTIL`, `off`. -/
def engineEntries (text : List Char) : List (String × EngineStat) :=
  bracketEntries text ++ valsEntries text ++ utilEntries text ++ offEntries text

/-- Source: `parse_engines` (parser.rs). -/
def parse_engines (text : List Char) : List (String × EngineStat) :=
  buildEngines (engineEntries text)

/-- Source: `parse_cpus` (parser.rs). -/
def parse_cpus (text : List Char) : List CpuCore :=
  match findFirst cpuMatchAt text with
  | some content =>
      ((String.mk content).splitOn ",").map fun piece =>
        let cpu_str := (trimStr piece).toList
        if cpu_str == "off".toList then default
        else
          match findFirst valFreqMatchAt cpu_str with
          | some (l, f) => { load_percent := parseU32D l, freq_mhz := parseU32D f }
          | none =>
            match stripSuffixChar cpu_str '%' with
            | some stripped => { load_percent := parseUIntCore 32 stripped, freq_mhz := none }
            | none => default
  | none => []

/-- Source: `HashMap::insert` / `collect()` semantics: a later entry for the same key
replaces the earlier one. -/
def insertOverwrite (m : List (String × α)) (kv : String × α) : List (String × α) :=
  if (m.lookup kv.1).isSome
  then m.map (fun p => if p.1 == kv.1 then kv else p)
  else m ++ [kv]

/-- Source: `parse_temps` (parser.rs): values are `f32`, embedded as exact signed
decimals. -/
def parse_temps (text : List Char) : List (String × TempVal) :=
  ((scanAll tempMatchAt text).filterMap fun caps =>
      match caps.value with
      | '-' :: digits =>
          (decimalToVal digits).map fun q =>
            (String.mk caps.name, ({ neg := true, mant := q.mant, fexp := q.fexp } : TempVal))
      | digits =>
          (decimalToVal digits).map fun q =>
            (String.mk caps.name, ({ neg := false, mant := q.mant, fexp := q.fexp } : TempVal))
    ).foldl insertOverwrite []

/-- Source: `normalize_power` (parser.rs): unit prefix character decides the scale;
the catch-all branch (any other captured character, e.g. a bare `W`)
multiplies by 1000. -/
def normalize_power (unit : String) (value : DecVal) : Nat :=
  match unit with
  | "m" | "M" => f64AsU32 value
  | "k" | "K" => f64AsU32 value.times1000
  | "" => f64AsU32 value
  | _ => f64AsU32 value.times1000

/-- Source: `parse_power` (parser.rs): `parse::<f64>().unwrap_or_default()` on the
captured values; the `(\w?)` captures are passed as (possibly empty) strings. -/
def parse_power (text : List Char) : List (String × PowerRail) :=
  ((scanAll wattMatchAt text).map fun caps =>
      let cur_val := (decimalToVal caps.cur).getD { mant := 0, fexp := 0 }
      let cur_unit := String.mk (caps.curUnit.elim [] (fun c => [c]))
      let avg_val := (decimalToVal caps.avg).getD { mant := 0, fexp := 0 }
      let avg_unit := String.mk (caps.avgUnit.elim [] (fun c => [c]))
      (String.mk caps.name,
        ({ current_mw := normalize_power cur_unit cur_val
           average_mw := normalize_power avg_unit avg_val } : PowerRail))
    ).foldl insertOverwrite []

/-- Source: `TegraStats::parse` (parser.rs): always returns `Ok`; the raw line is the
trimmed input, the timestamp (if found) is removed from the payload before the
remaining recognizers run. -/
def TegraStats.parse (line : String) : Except String TegraStats :=
  let raw := trimStr line
  let (timestamp, payload) :=
    match dateFind raw.toList with
    | some (before, matched, after) =>
        (some (trimStr (String.mk matched)),
          ((String.mk (before ++ after)).toList.dropWhile Char.isWhitespace))
    | none => (none, raw.toList)
  Except.ok
    { timestamp := timestamp
      ram := parse_ram payload
      swap := parse_swap payload
      iram := parse_iram payload
      mts := parse_mts payload
      cpus := parse_cpus payload
      engines := parse_engines payload
      temps := parse_temps payload
      power := parse_power payload
      raw := raw }

/-- Source: `TegraStats::gpu_usage` (parser.rs). -/
def TegraStats.gpu_usage (s : TegraStats) : Option Nat :=
  (s.engines.lookup "GR3D").bind fun e => e.usage_percent.orElse fun _ => e.raw_value

/-! ## `src/protocol.rs` — wire schema -/

structure ControlInfo where
  name : String
  description : String
  value : String
  options : List String
  readonly : Bool
  min : Option Nat
  max : Option Nat
  step : Option Nat
  requires_sudo : Bool
  supported : Bool
  unit : Option String
  deriving DecidableEq

structure ErrorInfo where
  code : String
  message : String
  deriving DecidableEq

inductive Request where
  | GetStats
  | GetMeta
  | ListControls
  | GetHealth
  | SetControl (control : String) (value : String) (token : Option String)
  deriving DecidableEq

/-! ## `src/hardware.rs` — the data carried into the control manager -/

structure JetsonHardware where
  is_jetson : Bool
  model : String
  codename : String
  soc : String
  module : String
  board_id : String
  serial_number : String
  l4t_version : String
  jetpack_version : String
  cuda_arch : String
  governors : List String
  sensors : List String
  power_rails : List String
  engines : List String
  nvpmodel_modes : List String
  deriving DecidableEq

/-! ## `src/control.rs` — control manager

Host utilities and `sysfs` access are effectful (`Command::output`,
`fs::write`, path probing); they are embedded as a `Host` record of pure
oracles, one field per primitive, each fixed for the single call an operation
makes to it. -/

structure ControlStatus where
  available : Bool
  jetson_clocks : Option Bool
  fan : Option String
  nvpmodel : Option String
  nvpmodel_modes : List String
  cpu_governor : Option String
  cpu_governor_modes : List String
  gpu_governor : Option String
  gpu_governor_modes : List String
  gpu_railgate : Option Bool
  supports_fan : Bool
  supports_nvpmodel : Bool
  supports_jetson_clocks : Bool
  supports_cpu_governor : Bool
  supports_gpu_governor : Bool
  supports_gpu_railgate : Bool
  note : String
  last_error : Option String
  deriving DecidableEq

structure ControlManager where
  status : ControlStatus
  mock : Bool
  hardware : JetsonHardware
  deriving DecidableEq

/-- One pure oracle per effectful primitive of `control.rs`. -/
structure Host where
  /-- Source: `detect_jetson_clocks()` — parse of `jetson_clocks --show`. -/
  detectJetsonClocks : Option Bool
  /-- the `Command::output()` spawn in `run_jetson_clocks_toggle` (its exit
  status is ignored there; only a spawn failure is an error). -/
  spawnJetsonClocksToggle : Except String Unit
  /-- Source: `run_jetson_clocks_set(on)` — `jetson_clocks --on`/`--off`, failing when
  the spawn fails or the utility exits non-zero. -/
  runJetsonClocksSet : Bool → Except String Unit
  /-- Source: `set_nvpmodel(mode)` — `nvpmodel -m <mode>`. -/
  runSetNvpmodel : String → Except String Unit
  /-- Source: `set_fan_percent(p)` — `jetson_fan --set <p>` (called with `p ≤ 100`). -/
  runSetFanPercent : Nat → Except String Unit
  /-- the `cpu_paths()` write loop of `set_cpu_governor`: first write error,
  or `wrote_any`. -/
  writeCpuGovernors : String → Except String Bool
  /-- Source: `gpu_devfreq_path()` probe. -/
  gpuDevfreqExists : Bool
  /-- Source: `fs::write(<devfreq>/governor, g)`. -/
  writeGpuGovernor : String → Except String Unit
  /-- Source: `gpu_power_control_path()` probe. -/
  gpuPowerCtlExists : Bool
  /-- Source: `fs::write(<gpu>/power/control, target)`. -/
  writeGpuRailgate : String → Except String Unit
  /-- Source: `JetsonHardware::detect_nvpmodel_modes()`. -/
  detectNvpmodelModes : List String
  /-- Source: `detect_cpu_governors()`. -/
  detectCpuGovernors : List String
  /-- Source: `detect_current_cpu_governor()`. -/
  detectCurrentCpuGovernor : Option String
  /-- Source: `detect_gpu_governors()`. -/
  detectGpuGovernors : List String × Option String
  /-- Source: `detect_gpu_railgate()`. -/
  detectGpuRailgate : Option Bool
  /-- Source: `JetsonHardware::detect_fan()`. -/
  detectFan : Bool
  /-- Source: `which::which("jetson_clocks").is_ok()`. -/
  whichJetsonClocks : Bool
  /-- Source: `detect_fan_speed()`. -/
  detectFanSpeed : Option String
  /-- Source: `detect_nvpmodel()`. -/
  detectNvpmodel : Option String

/-- Source: `ControlManager::from_hardware` (control.rs). -/
def ControlManager.from_hardware (host : Host) (hardware : JetsonHardware) (mock : Bool) :
    ControlManager :=
  if mock then
    let nvpmodel_modes :=
      if hardware.nvpmodel_modes.isEmpty then ["MODE_0", "MODE_1"]
      else hardware.nvpmodel_modes
    { hardware := hardware
      mock := true
      status :=
        { available := true
          jetson_clocks := some false
          fan := some "0%"
          nvpmodel := (nvpmodel_modes.get? 0).orElse fun _ => some "unknown"
          nvpmodel_modes := nvpmodel_modes
          cpu_governor := some "ondemand"
          cpu_governor_modes := ["ondemand", "performance"]
          gpu_governor := some "nvhost_podgov"
          gpu_governor_modes := ["nvhost_podgov", "performance"]
          gpu_railgate := some true
          supports_fan := true
          supports_nvpmodel := true
          supports_jetson_clocks := true
          supports_cpu_governor := true
          supports_gpu_governor := true
          supports_gpu_railgate := true
          note := "Mock mode (no real commands)"
          last_error := none } }
  else if hardware.is_jetson then
    let nvpmodel_modes := host.detectNvpmodelModes
    let cpu_governor_modes := host.detectCpuGovernors
    let cpu_governor := host.detectCurrentCpuGovernor
    let gpu_governor_modes := host.detectGpuGovernors.1
    let gpu_governor := host.detectGpuGovernors.2
    let gpu_railgate := host.detectGpuRailgate
    { hardware := hardware
      mock := false
      status :=
        { available := true
          jetson_clocks := host.detectJetsonClocks
          fan := host.detectFanSpeed
          nvpmodel := host.detectNvpmodel
          nvpmodel_modes := nvpmodel_modes
          cpu_governor := cpu_governor
          cpu_governor_modes := cpu_governor_modes
          gpu_governor := gpu_governor
          gpu_governor_modes := gpu_governor_modes
          gpu_railgate := gpu_railgate
          supports_fan := host.detectFan
          supports_nvpmodel := !nvpmodel_modes.isEmpty
          supports_jetson_clocks := host.whichJetsonClocks
          supports_cpu_governor := !cpu_governor_modes.isEmpty
          supports_gpu_governor := !gpu_governor_modes.isEmpty
          supports_gpu_railgate := gpu_railgate.isSome
          note := "Controles listos"
          last_error := none } }
  else
    { hardware := hardware
      mock := mock
      status :=
        { available := false
          jetson_clocks := none
          fan := none
          nvpmodel := none
          nvpmodel_modes := []
          cpu_governor := none
          cpu_governor_modes := []
          gpu_governor := none
          gpu_governor_modes := []
          gpu_railgate := none
          supports_fan := false
          supports_nvpmodel := false
          supports_jetson_clocks := false
          supports_cpu_governor := false
          supports_gpu_governor := false
          supports_gpu_railgate := false
          note := "Host no Jetson: modo demo"
          last_error := none } }

/-- Source: `next_mode` (control.rs). -/
def next_mode (modes : List String) (current : String) : String :=
  if modes.isEmpty then current
  else
    match modes.indexOf? current with
    | some idx => modes.getD ((idx + 1) % modes.length) current
    | none => modes.getD 0 current

/-- Source: `run_jetson_clocks_toggle` (control.rs). -/
def run_jetson_clocks_toggle (host : Host) : Except String Bool :=
  match host.detectJetsonClocks with
  | some state =>
      match host.spawnJetsonClocksToggle with
      | .ok _ => .ok !state
      | .error e => .error e
  | none => .error "No se pudo leer estado jetson_clocks"

/-- Source: `ControlManager::toggle_jetson_clocks` (control.rs). -/
def ControlManager.toggle_jetson_clocks (host : Host) (m : ControlManager) : ControlManager :=
  if m.mock then
    { m with status :=
        { m.status with
            jetson_clocks := some (!(m.status.jetson_clocks.getD false))
            last_error := none } }
  else if !m.status.available then
    { m with status := { m.status with last_error := some "No es Jetson (demo)" } }
  else if !m.status.supports_jetson_clocks then
    { m with status :=
        { m.status with last_error := some "jetson_clocks no disponible en este sistema" } }
  else
    match run_jetson_clocks_toggle host with
    | .ok new_state =>
        { m with status :=
            { m.status with jetson_clocks := some new_state, last_error := none } }
    | .error e => { m with status := { m.status with last_error := some e } }

/-- The `format!("Modo inválido: {}. Modos disponibles: {:?}", m, modes)`
message; `{:?}` on a `Vec<String>` prints `["a", "b"]`. -/
def invalidModeMsg (m : String) (modes : List String) : String :=
  "Modo inválido: " ++ m ++ ". Modos disponibles: [" ++
    String.intercalate ", " (modes.map (fun s => "\"" ++ s ++ "\"")) ++ "]"

/-- Source: `ControlManager::set_nvpmodel_mode` (control.rs). -/
def ControlManager.set_nvpmodel_mode (host : Host) (m : ControlManager)
    (mode : Option String) : ControlManager :=
  if !m.status.available then
    { m with status := { m.status with last_error := some "No es Jetson (demo)" } }
  else if m.mock then
    match mode with
    | some md =>
        if !m.status.nvpmodel_modes.contains md then
          { m with status :=
              { m.status with last_error := some (invalidModeMsg md m.status.nvpmodel_modes) } }
        else
          { m with status := { m.status with nvpmodel := some md, last_error := none } }
    | none =>
        let current := m.status.nvpmodel.getD ""
        let target := next_mode m.status.nvpmodel_modes current
        { m with status := { m.status with nvpmodel := some target, last_error := none } }
  else
    let target? : Except String String :=
      match mode with
      | some md =>
          if !m.status.nvpmodel_modes.contains md then
            .error (invalidModeMsg md m.status.nvpmodel_modes)
          else .ok md
      | none =>
          let current := m.status.nvpmodel.getD ""
          .ok (next_mode m.status.nvpmodel_modes current)
    match target? with
    | .error e => { m with status := { m.status with last_error := some e } }
    | .ok target =>
        match host.runSetNvpmodel target with
        | .ok _ =>
            { m with status := { m.status with nvpmodel := some target, last_error := none } }
        | .error e => { m with status := { m.status with last_error := some e } }

/-- Source: `ControlManager::set_fan` (control.rs): range check before any effect. -/
def ControlManager.set_fan (host : Host) (m : ControlManager) (percent : Nat) : ControlManager :=
  if percent > 100 then
    { m with status :=
        { m.status with
            last_error :=
              some ("Valor de fan inválido: " ++ toString percent ++ ". Rango válido: 0-100") } }
  else if m.mock then
    { m with status :=
        { m.status with fan := some (toString percent ++ "%"), last_error := none } }
  else if !m.status.available then
    { m with status := { m.status with last_error := some "No es Jetson (demo)" } }
  else if !m.status.supports_fan then
    { m with status :=
        { m.status with last_error := some "Control de fan no soportado en este hardware" } }
  else
    match host.runSetFanPercent percent with
    | .ok _ =>
        { m with status :=
            { m.status with fan := some (toString percent ++ "%"), last_error := none } }
    | .error e => { m with status := { m.status with last_error := some e } }

/-- The `format!("Governor inválido: {}. Disponibles: {:?}", g, modes)` message. -/
def invalidGovMsg (g : String) (modes : List String) : String :=
  "Governor inválido: " ++ g ++ ". Disponibles: [" ++
    String.intercalate ", " (modes.map (fun s => "\"" ++ s ++ "\"")) ++ "]"

def invalidGpuGovMsg (g : String) (modes : List String) : String :=
  "GPU governor inválido: " ++ g ++ ". Disponibles: [" ++
    String.intercalate ", " (modes.map (fun s => "\"" ++ s ++ "\"")) ++ "]"

/-- Source: `ControlManager::set_cpu_governor` (control.rs): returns the possibly
mutated manager together with the `Result`. -/
def ControlManager.set_cpu_governor (host : Host) (m : ControlManager) (governor : String) :
    ControlManager × Except String Unit :=
  if !m.status.available then (m, .error "No es Jetson (demo)")
  else if !m.status.supports_cpu_governor then (m, .error "Control de governor no soportado")
  else if !m.status.cpu_governor_modes.contains governor then
    (m, .error (invalidGovMsg governor m.status.cpu_governor_modes))
  else if m.mock then
    ({ m with status :=
        { m.status with cpu_governor := some governor, last_error := none } }, .ok ())
  else
    match host.writeCpuGovernors governor with
    | .error e => (m, .error e)
    | .ok false => (m, .error "No se pudieron escribir governors (sin rutas)")
    | .ok true =>
        ({ m with status :=
            { m.status with cpu_governor := some governor, last_error := none } }, .ok ())

/-- Source: `ControlManager::set_gpu_governor` (control.rs). -/
def ControlManager.set_gpu_governor (host : Host) (m : ControlManager) (governor : String) :
    ControlManager × Except String Unit :=
  if !m.status.available then (m, .error "No es Jetson (demo)")
  else if !m.status.supports_gpu_governor then (m, .error "Control de GPU governor no soportado")
  else if !m.status.gpu_governor_modes.contains governor then
    (m, .error (invalidGpuGovMsg governor m.status.gpu_governor_modes))
  else if m.mock then
    ({ m with status :=
        { m.status with gpu_governor := some governor, last_error := none } }, .ok ())
  else if host.gpuDevfreqExists then
    match host.writeGpuGovernor governor with
    | .error e => (m, .error e)
    | .ok _ =>
        ({ m with status :=
            { m.status with gpu_governor := some governor, last_error := none } }, .ok ())
  else (m, .error "No se pudo escribir GPU governor (sin rutas)")

/-- Source: `ControlManager::set_gpu_railgate` (control.rs). -/
def ControlManager.set_gpu_railgate (host : Host) (m : ControlManager) (mode : String) :
    ControlManager × Except String Unit :=
  if !m.status.available then (m, .error "No es Jetson (demo)")
  else if !m.status.supports_gpu_railgate then (m, .error "Control de GPU railgate no soportado")
  else
    match mode with
    | "auto" | "on" =>
        let target := mode
        if m.mock then
          ({ m with status :=
              { m.status with gpu_railgate := some (target == "auto"), last_error := none } },
            .ok ())
        else if host.gpuPowerCtlExists then
          match host.writeGpuRailgate target with
          | .error e => (m, .error e)
          | .ok _ =>
              ({ m with status :=
                  { m.status with gpu_railgate := some (target == "auto"), last_error := none } },
                .ok ())
        else (m, .error "No se pudo ajustar railgate (sin ruta power/control)")
    | _ => (m, .error ("Modo inválido: " ++ mode ++ " (auto|on)"))

/-- Source: `ControlManager::list_controls` (control.rs). -/
def ControlManager.list_controls (m : ControlManager) : List ControlInfo :=
  (if m.status.supports_jetson_clocks then
    [{ name := "jetson_clocks"
       description := "Max performance mode"
       value := (m.status.jetson_clocks.map (fun b => if b then "on" else "off")).getD "unknown"
       options := ["on", "off"]
       readonly := false
       min := none, max := none, step := none
       requires_sudo := true
       supported := m.status.supports_jetson_clocks
       unit := none }]
   else []) ++
  (if m.status.supports_nvpmodel then
    [{ name := "nvpmodel"
       description := "Power mode"
       value := m.status.nvpmodel.getD "unknown"
       options := m.status.nvpmodel_modes
       readonly := false
       min := none, max := none, step := none
       requires_sudo := true
       supported := m.status.supports_nvpmodel
       unit := none }]
   else []) ++
  (if m.status.supports_fan then
    [{ name := "fan"
       description := "Fan speed"
       value := m.status.fan.getD "0%"
       options := ["0-100"]
       readonly := false
       min := some 0, max := some 100, step := some 1
       requires_sudo := true
       supported := m.status.supports_fan
       unit := some "%" }]
   else []) ++
  (if m.status.supports_cpu_governor then
    [{ name := "cpu_governor"
       description := "CPU governor"
       value := m.status.cpu_governor.getD "unknown"
       options := m.status.cpu_governor_modes
       readonly := false
       min := none, max := none, step := none
       requires_sudo := true
       supported := m.status.supports_cpu_governor
       unit := none }]
   else []) ++
  (if m.status.supports_gpu_governor then
    [{ name := "gpu_governor"
       description := "GPU governor"
       value := m.status.gpu_governor.getD "unknown"
       options := m.status.gpu_governor_modes
       readonly := false
       min := none, max := none, step := none
       requires_sudo := true
       supported := m.status.supports_gpu_governor
       unit := none }]
   else []) ++
  (if m.status.supports_gpu_railgate then
    [{ name := "gpu_railgate"
       description := "GPU rail-gating (power control)"
       value := (m.status.gpu_railgate.map (fun v => if v then "auto" else "on")).getD "unknown"
       options := ["auto", "on"]
       readonly := false
       min := none, max := none, step := none
       requires_sudo := true
       supported := m.status.supports_gpu_railgate
       unit := none }]
   else [])

/-- Source: `ControlManager::control_info` (control.rs). -/
def ControlManager.control_info (m : ControlManager) (name : String) : ControlInfo :=
  ((m.list_controls).find? (fun c => c.name == name)).getD
    { name := name
      description := "unknown"
      value := "unknown"
      options := []
      readonly := true
      min := none, max := none, step := none
      requires_sudo := false
      supported := false
      unit := none }

/-- Source: `ControlManager::apply_control` (control.rs): the manager's own exhaustive
dispatcher (distinct from the daemon's); returns the possibly mutated manager
together with the `Result<ControlInfo>`. -/
def ControlManager.apply_control (host : Host) (m : ControlManager)
    (name value : String) : ControlManager × Except String ControlInfo :=
  match name with
  | "jetson_clocks" =>
      -- set_jetson_clocks: validation and host action; only `toggle`/`""`
      -- mutate the manager, the other arms return `Result<()>`.
      if !m.status.available then (m, .error "No es Jetson (demo)")
      else if !m.status.supports_jetson_clocks then
        (m, .error "jetson_clocks no disponible en este sistema")
      else
        (match value with
         | "on" =>
             match host.runJetsonClocksSet true with
             | .ok _ => (m, .ok (m.control_info name))
             | .error e => (m, .error e)
         | "off" =>
             match host.runJetsonClocksSet false with
             | .ok _ => (m, .ok (m.control_info name))
             | .error e => (m, .error e)
         | "toggle" | "" =>
             let m2 := m.toggle_jetson_clocks host
             (m2, .ok (m2.control_info name))
         | _ => (m, .error ("Valor inválido para jetson_clocks: " ++ value)))
  | "nvpmodel" =>
      let m2 := m.set_nvpmodel_mode host (some value)
      match m2.status.last_error with
      | some e => (m2, .error e)
      | none => (m2, .ok (m2.control_info name))
  | "fan" =>
      match parseU8 value with
      | none => (m, .error "fan value debe ser 0-100")
      | some p =>
          let m2 := m.set_fan host p
          match m2.status.last_error with
          | some e => (m2, .error e)
          | none => (m2, .ok (m2.control_info name))
  | "cpu_governor" =>
      let (m2, r) := m.set_cpu_governor host value
      match r with
      | .ok _ => (m2, .ok (m2.control_info name))
      | .error e => (m2, .error e)
  | "gpu_governor" =>
      let (m2, r) := m.set_gpu_governor host value
      match r with
      | .ok _ => (m2, .ok (m2.control_info name))
      | .error e => (m2, .error e)
  | "gpu_railgate" =>
      let (m2, r) := m.set_gpu_railgate host value
      match r with
      | .ok _ => (m2, .ok (m2.control_info name))
      | .error e => (m2, .error e)
  | _ => (m, .error "control desconocido")

/-! ## `src/health.rs` — health tracker -/

structure DaemonHealth where
  uptime_secs : Nat
  total_requests : Nat
  errors : Nat
  last_error : Option String
  connected_clients : Nat
  stats_collected : Nat
  deriving DecidableEq

/-- Source: `HealthTracker` state; the `Instant` start time is embedded as a clock
value, and `elapsed` becomes subtraction against a `now` parameter. -/
structure HealthTracker where
  start_time : Nat
  total_requests : Nat
  errors : Nat
  last_error : Option String
  stats_collected : Nat
  deriving DecidableEq

def HealthTracker.new (now : Nat) : HealthTracker :=
  { start_time := now, total_requests := 0, errors := 0, last_error := none,
    stats_collected := 0 }

def HealthTracker.record_request (h : HealthTracker) : HealthTracker :=
  { h with total_requests := h.total_requests + 1 }

def HealthTracker.record_error (h : HealthTracker) (error : String) : HealthTracker :=
  { h with errors := h.errors + 1, last_error := some error }

def HealthTracker.record_stats_collection (h : HealthTracker) : HealthTracker :=
  { h with stats_collected := h.stats_collected + 1 }

def HealthTracker.get_health (h : HealthTracker) (now : Nat) (connected_clients : Nat) :
    DaemonHealth :=
  { uptime_secs := now - h.start_time
    total_requests := h.total_requests
    errors := h.errors
    last_error := h.last_error
    connected_clients := connected_clients
    stats_collected := h.stats_collected }

/-! ## `src/bin/jetsonscoped.rs` — the daemon -/

inductive Response where
  | Stats (source : String) (data : Option TegraStats)
  | Meta (hw : JetsonHardware)
  | Controls (cs : List ControlInfo)
  | Health (h : DaemonHealth)
  | ControlState (c : ControlInfo)
  | Error (e : ErrorInfo)
  deriving DecidableEq

/-- Source: `auth_ok` (jetsonscoped.rs); `envTok` is the result of the
`JETSONSCOPE_AUTH_TOKEN` / `TEGRA_AUTH_TOKEN` env lookup chain. -/
def auth_ok (envTok : Option String) (token : Option String) : Bool :=
  match envTok with
  | some expected =>
      if expected.isEmpty then true
      else (token.map (fun t => t == expected)).getD false
  | none => true

/-- The request/encoding selection of `handle_client`: JSON decode first,
then CBOR, defaulting to `GetStats` in text.  The serde decoders are external
library code; they are abstracted as the two `Option`-returning parameters. -/
def decodeRequest (textDec binDec : List (UInt8) → Option Request)
    (buf : List UInt8) : Request × Bool :=
  match textDec buf with
  | some r => (r, false)
  | none =>
      match binDec buf with
      | some r => (r, true)
      | none => (Request.GetStats, false)

inductive WireEncoding where
  | text
  | binary
  deriving DecidableEq

/-- Source: `write_response` (jetsonscoped.rs).  `serde_cbor::to_vec` cannot fail on
`Response` (a closed sum of plainly serializable fields), so its `Err`
fallback branch is dead and the binary encoder is modelled total. -/
def write_response (cborEnc : Response → List UInt8) (jsonEnc : Response → String)
    (resp : Response) (as_cbor : Bool) : WireEncoding × List UInt8 :=
  if as_cbor then (WireEncoding.binary, cborEnc resp)
  else (WireEncoding.text, (jsonEnc resp).toUTF8.toList)

/-- The shared state a connection worker sees (each slot is behind its own
mutex in the daemon; lock acquisition is modelled as succeeding, which it does
unless another worker panicked while holding the lock). -/
structure DaemonState where
  stats : Option TegraStats
  label : String
  mgr : ControlManager
  health : HealthTracker
  deriving DecidableEq

/-- The request dispatch of `handle_client` (jetsonscoped.rs, the
`match req` after `record_request`). -/
def handle_request (envTok : Option String) (host : Host) (hw : JetsonHardware)
    (now : Nat) (req : Request) (st : DaemonState) : Response × DaemonState :=
  match req with
  | .GetStats => (.Stats st.label st.stats, st)
  | .GetHealth => (.Health (st.health.get_health now 0), st)
  | .GetMeta => (.Meta hw, st)
  | .ListControls => (.Controls st.mgr.list_controls, st)
  | .SetControl name value token =>
      if !auth_ok envTok token then
        let err : ErrorInfo :=
          { code := "auth_failed", message := "Auth failed (set JETSONSCOPE_AUTH_TOKEN)" }
        (.Error err, { st with health := st.health.record_error err.message })
      else
        let (err, mgr2) :=
          match name with
          | "jetson_clocks" => (none, st.mgr.toggle_jetson_clocks host)
          | "nvpmodel" => (none, st.mgr.set_nvpmodel_mode host (some value))
          | "fan" =>
              match parseU8 value with
              | some p => (none, st.mgr.set_fan host p)
              | none => (some "Invalid fan value (0-100)", st.mgr)
          | "cpu_governor" =>
              let (m2, r) := st.mgr.set_cpu_governor host value
              match r with
              | .ok _ => (none, m2)
              | .error e => (some e, m2)
          | _ => (some "Unknown control", st.mgr)
        match err with
        | some e =>
            let error_info : ErrorInfo := { code := "invalid_control", message := e }
            (.Error error_info,
              { st with mgr := mgr2, health := st.health.record_error error_info.message })
        | none =>
            match mgr2.status.last_error with
            | some last_err =>
                let error_info : ErrorInfo := { code := "control_error", message := last_err }
                (.Error error_info,
                  { st with mgr := mgr2, health := st.health.record_error error_info.message })
            | none => (.ControlState (mgr2.control_info name), { st with mgr := mgr2 })

/-- Source: `handle_client` (jetsonscoped.rs): read, record the request, decode,
dispatch, and answer in the mirrored encoding. -/
def handle_client (envTok : Option String) (host : Host) (hw : JetsonHardware) (now : Nat)
    (textDec binDec : List UInt8 → Option Request) (buf : List UInt8)
    (st : DaemonState) : Response × Bool × DaemonState :=
  let st1 := { st with health := st.health.record_request }
  let (req, respond_cbor) := decodeRequest textDec binDec buf
  let (resp, st2) := handle_request envTok host hw now req st1
  (resp, respond_cbor, st2)

/-- The health snapshot written by `spawn_telemetry_logger` on each tick. -/
def telemetry_snapshot (h : HealthTracker) (now : Nat) : DaemonHealth :=
  h.get_health now 0

/-- The `health` field of the `/debug/snapshot` JSON (`debug_snapshot`). -/
def debug_snapshot_health (h : HealthTracker) (now : Nat) : Option DaemonHealth :=
  some (h.get_health now 0)

/-- The health snapshot whose counters `build_metrics` renders, including the
`jetsonscope_connected_clients` gauge. -/
def build_metrics_health (h : HealthTracker) (now : Nat) : DaemonHealth :=
  h.get_health now 0

/-! ## `src/collector.rs` — socket-source loop and synthetic fallback -/

inductive CollectorMode where
  | AutoCommand
  | PreferSocket
  | SocketOnly
  deriving DecidableEq

/-- Source: `max_retries`: `usize::MAX` for `SocketOnly`, otherwise 5. -/
def maxRetriesFor (mode : CollectorMode) : Nat :=
  match mode with
  | CollectorMode.SocketOnly => 2 ^ 64 - 1
  | _ => 5

/-- One iteration's outcome of `read_once_from_socket`. -/
inductive SocketOutcome where
  | ok (source : String) (hasStats : Bool)
  | err (msg : String)
  deriving DecidableEq

/-- Observable events of the collector loop: channel sends and sleeps. -/
inductive CollectorEvent where
  | stats
  | label (s : String)
  | error (s : String)
  | sleep (ms : Nat)
  deriving DecidableEq

/-- Source: `run_synthetic`: the label, then one snapshot per second (the infinite
loop is observed up to `fuel` iterations). -/
def syntheticTrace (fuel : Nat) : List CollectorEvent :=
  CollectorEvent.label "synthetic generator" ::
    (List.replicate fuel [CollectorEvent.stats, CollectorEvent.sleep 1000]).flatten

/-- The socket-source loop of `spawn_collection_loop`, driven by one
`SocketOutcome` per iteration (the trace of channel sends and sleeps). -/
def socketLoop (maxRetries synFuel : Nat) :
    Nat → Nat → List SocketOutcome → List CollectorEvent
  | _, _, [] => []
  | _, _, SocketOutcome.ok src hasStats :: rest =>
      (if hasStats then [CollectorEvent.stats] else []) ++
        [CollectorEvent.label src, CollectorEvent.sleep 1000] ++
        socketLoop maxRetries synFuel 0 1000 rest
  | retry_count, backoff_ms, SocketOutcome.err msg :: rest =>
      [CollectorEvent.label ("socket error: " ++ msg),
       CollectorEvent.error ("socket error: " ++ msg)] ++
        (if retry_count + 1 ≥ maxRetries then syntheticTrace synFuel
         else [CollectorEvent.sleep backoff_ms, CollectorEvent.sleep 1000] ++
           socketLoop maxRetries synFuel (retry_count + 1) (min (backoff_ms * 2) 10000) rest)

/-- The sleep durations of a collector trace, in order. -/
def sleepsOf (events : List CollectorEvent) : List Nat :=
  events.filterMap fun e =>
    match e with
    | CollectorEvent.sleep ms => some ms
    | _ => none

/-- The two channel sends of the socket-loop error branch, in program order
(`SourceLabel` first, then `Error`). -/
def socketErrEvents (msg : String) : List CollectorEvent :=
  [CollectorEvent.label ("socket error: " ++ msg),
   CollectorEvent.error ("socket error: " ++ msg)]

/-! ## Auxiliary definitions used by the claim statements -/

/-- The base names inserted by the `UTIL_ONLY_RE` loop of `parse_engines`
(the second, `_UTIL`-stripped insertion of each capture). -/
def utilBaseNames (text : List Char) : List String :=
  (scanAll utilMatchAt text).filterMap fun caps =>
    let name := String.mk caps.name
    if skipName name then none
    else if endsWithStr name "_UTIL" then some (dropSuffixN name 5) else none

/-- The machine-readable code of an `Error` response. -/
def errCode : Response → Option String
  | Response.Error e => some e.code
  | _ => none

/-- Source: `set_fan`'s out-of-range message for 150
(`"Valor de fan inválido: 150. Rango válido: 0-100"`). -/
def fanMsg150 : String :=
  "Valor de fan inválido: " ++ toString (150 : Nat) ++ ". Rango válido: 0-100"

/-- Concrete hardware fixture: a Jetson with two nvpmodel modes. -/
def hw0 : JetsonHardware :=
  { is_jetson := true, model := "", codename := "", soc := "", module := ""
    board_id := "", serial_number := "", l4t_version := "", jetpack_version := ""
    cuda_arch := "", governors := [], sensors := [], power_rails := [], engines := []
    nvpmodel_modes := ["MODE_0", "MODE_1"] }

/-- Concrete host fixture: every utility invocation and `sysfs` access fails
or is absent (none of the claim paths exercised on it reach the host). -/
def host0 : Host :=
  { detectJetsonClocks := none
    spawnJetsonClocksToggle := .error "spawn failed"
    runJetsonClocksSet := fun _ => .error "spawn failed"
    runSetNvpmodel := fun _ => .error "command failed"
    runSetFanPercent := fun _ => .error "command failed"
    writeCpuGovernors := fun _ => .error "write failed"
    gpuDevfreqExists := false
    writeGpuGovernor := fun _ => .error "write failed"
    gpuPowerCtlExists := false
    writeGpuRailgate := fun _ => .error "write failed"
    detectNvpmodelModes := []
    detectCpuGovernors := []
    detectCurrentCpuGovernor := none
    detectGpuGovernors := ([], none)
    detectGpuRailgate := none
    detectFan := false
    whichJetsonClocks := false
    detectFanSpeed := none
    detectNvpmodel := none }

/-- Concrete control manager fixture: mock mode over `hw0` (all controls
supported, no real commands). -/
def mgr0 : ControlManager := ControlManager.from_hardware host0 hw0 true

/-- Concrete daemon-state fixture. -/
def st0 : DaemonState :=
  { stats := none, label := "tegrastats real", mgr := mgr0, health := HealthTracker.new 0 }

/-! ## Helper lemmas: first-wins association-list semantics -/

theorem lookup_append (k : String) (l₁ l₂ : List (String × EngineStat)) :
    (l₁ ++ l₂).lookup k =
      match l₁.lookup k with
      | some v => some v
      | none => l₂.lookup k := by
  induction l₁ with
  | nil => simp [List.lookup]
  | cons p t ih =>
      obtain ⟨a, b⟩ := p
      by_cases h : k == a <;> simp [List.lookup, h, ih]

theorem lookup_foldl_ins_of_isSome :
    ∀ (l : List (String × EngineStat)) (acc : List (String × EngineStat)) (k : String),
      (acc.lookup k).isSome = true →
      (l.foldl insertIfAbsent acc).lookup k = acc.lookup k := by
  intro l
  induction l with
  | nil => intro acc k _; rfl
  | cons p t ih =>
      intro acc k hk
      obtain ⟨a, b⟩ := p
      have hacc : (insertIfAbsent acc (a, b)).lookup k = acc.lookup k := by
        unfold insertIfAbsent
        by_cases h : (acc.lookup a).isSome
        · simp [h]
        · simp [h, lookup_append]
          obtain ⟨v, hv⟩ := Option.isSome_iff_exists.mp hk
          simp [hv]
      have : (t.foldl insertIfAbsent (insertIfAbsent acc (a, b))).lookup k
          = (insertIfAbsent acc (a, b)).lookup k :=
        ih _ _ (by rw [hacc]; exact hk)
      simpa [List.foldl, hacc] using this

theorem lookup_foldl_ins_of_none :
    ∀ (l : List (String × EngineStat)) (acc : List (String × EngineStat)) (k : String),
      acc.lookup k = none →
      (l.foldl insertIfAbsent acc).lookup k = l.lookup k := by
  intro l
  induction l with
  | nil => intro acc k hk; simpa using hk
  | cons p t ih =>
      intro acc k hk
      obtain ⟨a, b⟩ := p
      by_cases h : k == a
      · -- the head key is the searched key
        have hak : k = a := eq_of_beq h
        have hacc_a : acc.lookup a = none := by rw [← hak]; exact hk
        have hins : insertIfAbsent acc (a, b) = acc ++ [(a, b)] := by
          unfold insertIfAbsent; simp [hacc_a]
        have hlook : (acc ++ [(a, b)]).lookup k = some b := by
          rw [lookup_append, hk]; simp [List.lookup, h]
        have := lookup_foldl_ins_of_isSome t (acc ++ [(a, b)]) k (by simp [hlook])
        simp only [List.foldl, hins]
        rw [this, hlook]
        simp [List.lookup, h]
      · -- the head key differs from the searched key
        have hacc' : (insertIfAbsent acc (a, b)).lookup k = none := by
          unfold insertIfAbsent
          by_cases h2 : (acc.lookup a).isSome
          · simpa [h2] using hk
          · rw [if_neg h2, lookup_append, hk]
            simp [List.lookup, h]
        have := ih (insertIfAbsent acc (a, b)) k hacc'
        simp only [List.foldl]
        rw [this]
        simp [List.lookup, h]

theorem mem_foldl_ins :
    ∀ (l : List (String × EngineStat)) (acc : List (String × EngineStat))
      (x : String × EngineStat),
      x ∈ l.foldl insertIfAbsent acc → x ∈ acc ∨ x ∈ l := by
  intro l
  induction l with
  | nil => intro acc x hx; exact Or.inl hx
  | cons p t ih =>
      intro acc x hx
      rcases ih (insertIfAbsent acc p) x hx with h | h
      · unfold insertIfAbsent at h
        by_cases hc : ((acc.lookup p.1).isSome : Prop)
        · simp [hc] at h; exact Or.inl h
        · simp [hc] at h
          rcases h with h | h
          · exact Or.inl h
          · exact Or.inr (by simp [h])
      · exact Or.inr (List.mem_cons_of_mem _ h)

theorem bracketEntries_not_skip (text : List Char) (k : String) (v : EngineStat)
    (h : (k, v) ∈ bracketEntries text) : skipName k = false := by
  unfold bracketEntries at h
  rcases List.mem_filterMap.mp h with ⟨caps, _, hf⟩
  by_cases hs : skipName (stripFreqSuffix (String.mk caps.name)) <;>
    simp [hs] at hf
  rw [hf.1] at hs
  simpa using hs

theorem valsEntries_not_skip (text : List Char) (k : String) (v : EngineStat)
    (h : (k, v) ∈ valsEntries text) : skipName k = false := by
  unfold valsEntries at h
  rcases List.mem_filterMap.mp h with ⟨caps, _, hf⟩
  by_cases hs : skipName (stripFreqSuffix (String.mk caps.name)) <;>
    simp [hs] at hf
  by_cases hu : endsWithStr (stripFreqSuffix (String.mk caps.name)) "_UTIL" <;>
    simp [hu] at hf
  rw [hf.1] at hs
  simpa using hs

theorem offEntries_not_skip (text : List Char) (k : String) (v : EngineStat)
    (h : (k, v) ∈ offEntries text) : skipName k = false := by
  unfold offEntries at h
  rcases List.mem_filterMap.mp h with ⟨caps, _, hf⟩
  by_cases hs : skipName (String.mk caps) <;> simp [hs] at hf
  rw [hf.1] at hs
  simpa using hs

set_option maxHeartbeats 1000000 in
theorem utilEntries_skip_mem_base (text : List Char) (k : String) (v : EngineStat)
    (h : (k, v) ∈ utilEntries text) (hskip : skipName k = true) :
    k ∈ utilBaseNames text := by
  unfold utilEntries at h
  rcases List.mem_flatMap.mp h with ⟨caps, hcaps, hmem⟩
  by_cases hs : skipName (String.mk caps.name)
  · simp [hs] at hmem
  · simp only [hs, Bool.false_eq_true, if_false] at hmem
    rcases List.mem_cons.mp hmem with heq | htail
    · -- the `*_UTIL` key itself: its skip flag is false, contradiction
      have : k = String.mk caps.name := congrArg Prod.fst heq
      rw [this] at hskip
      simp [hskip] at hs
    · by_cases hu : endsWithStr (String.mk caps.name) "_UTIL" = true
      · rw [if_pos hu] at htail
        have heq2 := List.mem_singleton.mp htail
        have hkbase : k = dropSuffixN (String.mk caps.name) 5 := congrArg Prod.fst heq2
        unfold utilBaseNames
        refine List.mem_filterMap.mpr ⟨caps, hcaps, ?_⟩
        show (if skipName (String.mk caps.name) = true then none
              else if endsWithStr (String.mk caps.name) "_UTIL" = true
                then some (dropSuffixN (String.mk caps.name) 5) else none) = some k
        rw [if_neg hs, if_pos hu]
        exact congrArg some hkbase.symm
      · rw [if_neg hu] at htail
        exact absurd htail (List.not_mem_nil _)

/-! ## The claims -/

/-- C1 (counterexample): an authorized `SetControl{fan, "150"}` is answered
with error code `control_error`, not `invalid_control` — `"150"` parses as a
`u8`, so the daemon reaches `set_fan`, whose range check populates
`last_error`, and the dispatcher maps a populated `last_error` to
`control_error`. -/
theorem c1_fan150_counterexample :
    errCode (handle_request none host0 hw0 0 (Request.SetControl "fan" "150" none) st0).1
      = some "control_error"
    ∧ errCode (handle_request none host0 hw0 0 (Request.SetControl "fan" "150" none) st0).1
        ≠ some "invalid_control" := by
  exact ⟨by decide, by decide⟩

/-- C1 (amended): for every authorized `SetControl{fan, "150"}`, the daemon
returns `Error{control_error}` (not `invalid_control`); the message contains
`0-100`, `last_error` is set to that message, and every other `ControlStatus`
field — including the observable fan value — is unchanged. -/
theorem c1_fan150_amended (envTok : Option String) (token : Option String) (host : Host)
    (hw : JetsonHardware) (now : Nat) (st : DaemonState)
    (hauth : auth_ok envTok token = true) :
    (handle_request envTok host hw now (Request.SetControl "fan" "150" token) st).1
      = Response.Error ⟨"control_error", fanMsg150⟩
    ∧ "0-100".toList <:+: fanMsg150.toList
    ∧ (handle_request envTok host hw now (Request.SetControl "fan" "150" token) st).2.mgr.status
        = { st.mgr.status with last_error := some fanMsg150 }
    ∧ (handle_request envTok host hw now
          (Request.SetControl "fan" "150" token) st).2.mgr.status.fan
        = st.mgr.status.fan
    ∧ (handle_request envTok host hw now (Request.SetControl "fan" "150" token) st).2.health
        = st.health.record_error fanMsg150 := by
  have h150 : parseU8 "150" = some 150 := by decide
  have hinfix : "0-100".toList <:+: fanMsg150.toList := by decide
  refine ⟨?_, hinfix, ?_, ?_, ?_⟩ <;>
    simp [handle_request, hauth, h150, ControlManager.set_fan, fanMsg150]

/-- C1 (witness). -/
theorem c1_fan150_witness :
    (handle_request none host0 hw0 0 (Request.SetControl "fan" "150" none) st0).1
      = Response.Error ⟨"control_error", fanMsg150⟩ :=
  (c1_fan150_amended none none host0 hw0 0 st0 rfl).1

/-- C2 (code bug): the daemon's `SetControl` dispatch does not recognize
`gpu_railgate` or `gpu_governor` — both fall to the catch-all arm and are
rejected as `Error{invalid_control, "Unknown control"}` — even though the
control manager's own dispatcher `apply_control` applies them successfully on
a host that supports them (here: mock mode, all controls supported). -/
theorem c2_gpu_controls_unknown :
    (handle_request none host0 hw0 0 (Request.SetControl "gpu_railgate" "auto" none) st0).1
      = Response.Error ⟨"invalid_control", "Unknown control"⟩
    ∧ (handle_request none host0 hw0 0
          (Request.SetControl "gpu_governor" "performance" none) st0).1
        = Response.Error ⟨"invalid_control", "Unknown control"⟩
    ∧ (mgr0.apply_control host0 "gpu_railgate" "auto").2
        = Except.ok
            { name := "gpu_railgate", description := "GPU rail-gating (power control)"
              value := "auto", options := ["auto", "on"], readonly := false
              min := none, max := none, step := none, requires_sudo := true
              supported := true, unit := none }
    ∧ (mgr0.apply_control host0 "gpu_governor" "performance").2
        = Except.ok
            { name := "gpu_governor", description := "GPU governor"
              value := "performance", options := ["nvhost_podgov", "performance"]
              readonly := false, min := none, max := none, step := none
              requires_sudo := true, supported := true, unit := none } := by
  exact ⟨by decide, by decide, rfl, rfl⟩

/-- C3: the daemon decodes text first, then binary, defaulting to `GetStats`
in text; the response is written in binary exactly when the text decode failed
and the binary decode succeeded. -/
theorem c3_encoding_autodetect (textDec binDec : List UInt8 → Option Request)
    (buf : List UInt8) (cborEnc : Response → List UInt8) (jsonEnc : Response → String)
    (resp : Response) :
    (decodeRequest textDec binDec buf).2 = ((textDec buf).isNone && (binDec buf).isSome)
    ∧ (decodeRequest textDec binDec buf).1
        = (((textDec buf).orElse fun _ => binDec buf).getD Request.GetStats)
    ∧ ((write_response cborEnc jsonEnc resp (decodeRequest textDec binDec buf).2).1
          = WireEncoding.binary
        ↔ (textDec buf = none ∧ (binDec buf).isSome = true)) := by
  unfold decodeRequest write_response
  rcases h1 : textDec buf with _ | r1 <;> rcases h2 : binDec buf with _ | r2 <;>
    simp [h1, h2]

/-- C4: `parse` is total — it returns `Ok` on every input, with
`raw = trim(line)`; fragments it does not recognize are ignored and the
corresponding fields are left unset (witnessed on an input with no
recognizable fragment). -/
theorem c4_parse_total (L : String) :
    (∃ s, TegraStats.parse L = Except.ok s ∧ s.raw = trimStr L)
    ∧ TegraStats.parse "hello world" = Except.ok
        { timestamp := none, ram := none, swap := none, iram := none, mts := none,
          cpus := [], engines := [], temps := [], power := [], raw := "hello world" } := by
  exact ⟨⟨_, rfl, rfl⟩, rfl⟩

/-- C4 (witness). -/
theorem c4_parse_total_witness :
    TegraStats.parse " RAM 1/2MB (lfb 1x1MB) "
      = Except.ok ((c4_parse_total " RAM 1/2MB (lfb 1x1MB) ").1.choose)
    ∧ (c4_parse_total " RAM 1/2MB (lfb 1x1MB) ").1.choose.raw = "RAM 1/2MB (lfb 1x1MB)" := by
  obtain ⟨h1, h2⟩ := (c4_parse_total " RAM 1/2MB (lfb 1x1MB) ").1.choose_spec
  exact ⟨h1, by rw [h2]; decide⟩

/-- C5 (counterexample): a power value with a bare `W` suffix and no unit
prefix is multiplied by 1000 — the `W` is captured by `(\w?)` and hits the
catch-all branch of `normalize_power` — so `"VDD_IN 5704W/5704W"` yields
5 704 000 mW, not the 5704 the claim states. -/
theorem c5_power_unit_counterexample :
    parse_power "VDD_IN 5704W/5704W".toList
      = [("VDD_IN", { current_mw := 5704000, average_mw := 5704000 })]
    ∧ parse_power "VDD_IN 5704W/5704W".toList
        ≠ [("VDD_IN", { current_mw := 5704, average_mw := 5704 })] := by
  exact ⟨by decide, by decide⟩

/-- C5 (amended): power values normalize to milliwatts with the scale decided
by the captured unit character: `m`/`M` and the empty capture leave the value
as-is, while `k`/`K` — and any other captured character, including a bare `W`
suffix with no prefix — multiply by 1000.  The two S4 examples hold; the
bare-`W` example yields 5 704 000 mW. -/
theorem c5_power_unit_amended :
    parse_power "VDD_IN 5704mW/5704mW".toList
      = [("VDD_IN", { current_mw := 5704, average_mw := 5704 })]
    ∧ parse_power "VDD_IN 14025/14416".toList
        = [("VDD_IN", { current_mw := 14025, average_mw := 14416 })]
    ∧ parse_power "VDD_IN 5704W/5704W".toList
        = [("VDD_IN", { current_mw := 5704000, average_mw := 5704000 })]
    ∧ (∀ v : DecVal, normalize_power "m" v = f64AsU32 v)
    ∧ (∀ v : DecVal, normalize_power "M" v = f64AsU32 v)
    ∧ (∀ v : DecVal, normalize_power "k" v = f64AsU32 v.times1000)
    ∧ (∀ v : DecVal, normalize_power "K" v = f64AsU32 v.times1000)
    ∧ (∀ v : DecVal, normalize_power "" v = f64AsU32 v)
    ∧ (∀ v : DecVal, normalize_power "W" v = f64AsU32 v.times1000) := by
  refine ⟨by decide, by decide, by decide, ?_, ?_, ?_, ?_, ?_, ?_⟩ <;> intro v <;> rfl

/-- C6 (counterexample): the code runs the `_UTIL` recognizer *before* the
`off` recognizer, not after it as the spec's listing orders them.  On
`"NVCSI off NVCSI_UTIL 6%"`, the bracketed-freq and general recognizers
contribute nothing and the `off` recognizer matches `NVCSI` with usage 0, so
under the claimed order `engines["NVCSI"]` would be `{usage 0}`; the map
actually holds `{usage 6}` from the `_UTIL` recognizer. -/
theorem c6_recognizer_order_counterexample :
    (parse_engines "NVCSI off NVCSI_UTIL 6%".toList).lookup "NVCSI"
      = some { usage_percent := some 6, freq_mhz := none, raw_value := none }
    ∧ bracketEntries "NVCSI off NVCSI_UTIL 6%".toList = []
    ∧ valsEntries "NVCSI off NVCSI_UTIL 6%".toList = []
    ∧ offEntries "NVCSI off NVCSI_UTIL 6%".toList
        = [("NVCSI", { usage_percent := some 0, freq_mhz := none, raw_value := none })]
    ∧ some ({ usage_percent := some 6, freq_mhz := none, raw_value := none } : EngineStat)
        ≠ some { usage_percent := some 0, freq_mhz := none, raw_value := none } := by
  exact ⟨by decide, by decide, by decide, by decide, by decide⟩

/-- C6 (amended): for every engine name, the entry in the engines mapping
comes from the first recognizer that matches in the order the code runs them —
bracketed-freq, general, `_UTIL`, then `off` — and recognizers that run later
never overwrite an existing entry: the lookup in the built map equals the
first occurrence in the concatenated recognizer contributions. -/
theorem c6_first_wins_amended (text : List Char) (k : String) :
    (parse_engines text).lookup k = (engineEntries text).lookup k := by
  unfold parse_engines buildEngines
  exact lookup_foldl_ins_of_none _ _ _ rfl

/-- C7 (counterexample): `"CPU_UTIL 5%"` inserts the forbidden base name
`CPU` (the `_UTIL` recognizer's base-name insertion skips the forbidden-name
check), and `"X_FREQ off"` inserts `X_FREQ` with its suffix intact (the `off`
recognizer does not strip `_FREQ`). -/
theorem c7_engine_names_counterexample :
    (parse_engines "CPU_UTIL 5% X_FREQ off".toList).lookup "CPU"
      = some { usage_percent := some 5, freq_mhz := none, raw_value := none }
    ∧ skipName "CPU" = true
    ∧ (parse_engines "CPU_UTIL 5% X_FREQ off".toList).lookup "X_FREQ"
        = some { usage_percent := some 0, freq_mhz := none, raw_value := none }
    ∧ endsWithStr "X_FREQ" "_FREQ" = true := by
  exact ⟨by decide, by decide, by decide, by decide⟩

/-- C7 (amended): a forbidden name (`RAM`/`SWAP`/`IRAM`/`CPU`/`MTS`) appears
as an engines key only as the stripped base of a `*_UTIL` token; the
bracketed-freq and general recognizers strip a trailing `_FREQ` (witnessed by
`GR3D_FREQ` inserting `GR3D`), while the `off` recognizer inserts the
captured name unstripped. -/
theorem c7_engine_names_amended :
    (∀ (text : List Char) (k : String) (v : EngineStat),
        (k, v) ∈ parse_engines text → skipName k = true → k ∈ utilBaseNames text)
    ∧ (parse_engines "GR3D_FREQ 0%@[305]".toList).lookup "GR3D"
        = some { usage_percent := some 0, freq_mhz := some 305, raw_value := none }
    ∧ (parse_engines "GR3D_FREQ 0%@[305]".toList).lookup "GR3D_FREQ" = none
    ∧ (parse_engines "X_FREQ off".toList).lookup "X_FREQ"
        = some { usage_percent := some 0, freq_mhz := none, raw_value := none } := by
  refine ⟨?_, by decide, by decide, by decide⟩
  intro text k v hmem hskip
  unfold parse_engines buildEngines at hmem
  rcases mem_foldl_ins _ _ _ hmem with hnil | hl
  · exact absurd hnil (List.not_mem_nil _)
  · unfold engineEntries at hl
    rcases List.mem_append.mp hl with h1 | ho
    · rcases List.mem_append.mp h1 with h2 | hu
      · rcases List.mem_append.mp h2 with hb | hv
        · exact absurd hskip (by simp [bracketEntries_not_skip text k v hb])
        · exact absurd hskip (by simp [valsEntries_not_skip text k v hv])
      · exact utilEntries_skip_mem_base text k v hu hskip
    · exact absurd hskip (by simp [offEntries_not_skip text k v ho])

/-- C7 (witness). -/
theorem c7_engine_names_witness :
    ("CPU", ({ usage_percent := some 5, freq_mhz := none, raw_value := none } : EngineStat))
        ∈ parse_engines "CPU_UTIL 5%".toList
    ∧ skipName "CPU" = true
    ∧ "CPU" ∈ utilBaseNames "CPU_UTIL 5%".toList :=
  ⟨by decide, by decide,
    c7_engine_names_amended.1 "CPU_UTIL 5%".toList "CPU"
      { usage_percent := some 5, freq_mhz := none, raw_value := none }
      (by decide) (by decide)⟩

/-- C8: when the auth-token env is set non-empty, a `SetControl` whose token
does not match returns `auth_failed`, increments the error counter, and leaves
the control manager untouched; an unset or empty env accepts any token; the
read requests do not depend on the auth environment at all. -/
theorem c8_auth_gating (t : String) (token : Option String) (host : Host)
    (hw : JetsonHardware) (now : Nat) (name value : String) (st : DaemonState)
    (hne : t ≠ "") (hmismatch : token ≠ some t) :
    (handle_request (some t) host hw now (Request.SetControl name value token) st).1
      = Response.Error ⟨"auth_failed", "Auth failed (set JETSONSCOPE_AUTH_TOKEN)"⟩
    ∧ (handle_request (some t) host hw now (Request.SetControl name value token) st).2.mgr
        = st.mgr
    ∧ (handle_request (some t) host hw now
          (Request.SetControl name value token) st).2.health.errors
        = st.health.errors + 1
    ∧ (∀ tok2, auth_ok none tok2 = true)
    ∧ (∀ tok2, auth_ok (some "") tok2 = true)
    ∧ (∀ e1 e2 : Option String,
        handle_request e1 host hw now Request.GetStats st
          = handle_request e2 host hw now Request.GetStats st
        ∧ handle_request e1 host hw now Request.GetMeta st
          = handle_request e2 host hw now Request.GetMeta st
        ∧ handle_request e1 host hw now Request.ListControls st
          = handle_request e2 host hw now Request.ListControls st
        ∧ handle_request e1 host hw now Request.GetHealth st
          = handle_request e2 host hw now Request.GetHealth st) := by
  have hempty : t.isEmpty = false := by
    rcases h : t.isEmpty with _ | _
    · rfl
    · exact absurd ((String.isEmpty_iff t).mp h) hne
  have hfalse : auth_ok (some t) token = false := by
    simp only [auth_ok, hempty, Bool.false_eq_true, if_false]
    rcases token with _ | u
    · rfl
    · have hut : u ≠ t := fun he => hmismatch (by rw [he])
      have hbeq : (u == t) = false := beq_eq_false_iff_ne.mpr hut
      simp [hbeq]
  refine ⟨?_, ?_, ?_, fun _ => rfl, fun _ => rfl, fun _ _ => ⟨rfl, rfl, rfl, rfl⟩⟩ <;>
    simp [handle_request, hfalse, HealthTracker.record_error]

/-- C8 (witness). -/
theorem c8_auth_gating_witness :
    (handle_request (some "secret") host0 hw0 0
        (Request.SetControl "fan" "50" (some "wrong")) st0).1
      = Response.Error ⟨"auth_failed", "Auth failed (set JETSONSCOPE_AUTH_TOKEN)"⟩ :=
  (c8_auth_gating "secret" (some "wrong") host0 hw0 0 "fan" "50" st0
    (by decide) (by decide)).1

/-- C9 (counterexample): on five consecutive connection failures in a
non-SocketOnly mode, the loop sleeps 1, 2, 4 and 8 seconds of backoff — each
followed by the loop's fixed 1-second pause — and hands off to the synthetic
generator on the fifth failure *without* sleeping the capped 10-second
backoff; the claimed delay sequence 1, 2, 4, 8, 10 does not occur. -/
theorem c9_backoff_counterexample :
    sleepsOf (socketLoop (maxRetriesFor CollectorMode.AutoCommand) 0 0 1000
        (List.replicate 5 (SocketOutcome.err "connection refused")))
      = [1000, 1000, 2000, 1000, 4000, 1000, 8000, 1000]
    ∧ ([1000, 1000, 2000, 1000, 4000, 1000, 8000, 1000] : List Nat)
        ≠ [1000, 2000, 4000, 8000, 10000] := by
  exact ⟨by decide, by decide⟩

/-- C9 (amended): each failure emits `SourceLabel("socket error: …")` then
`Error`; failures 1–4 are each followed by a backoff sleep of 1, 2, 4, 8
seconds plus the loop's fixed 1-second sleep; the fifth failure hands off to
the synthetic generator immediately (the 10-second cap is computed but never
slept), which emits its label and then one snapshot per second; any success
resets the retry counter and the backoff to 1 second. -/
theorem c9_backoff_amended (msg : String) (synFuel : Nat) :
    socketLoop 5 synFuel 0 1000 (List.replicate 5 (SocketOutcome.err msg))
      = socketErrEvents msg ++ [CollectorEvent.sleep 1000, CollectorEvent.sleep 1000]
        ++ socketErrEvents msg ++ [CollectorEvent.sleep 2000, CollectorEvent.sleep 1000]
        ++ socketErrEvents msg ++ [CollectorEvent.sleep 4000, CollectorEvent.sleep 1000]
        ++ socketErrEvents msg ++ [CollectorEvent.sleep 8000, CollectorEvent.sleep 1000]
        ++ socketErrEvents msg ++ syntheticTrace synFuel
    ∧ (∀ (mr sf r b : Nat) (src : String) (hasStats : Bool) (rest : List SocketOutcome),
        socketLoop mr sf r b (SocketOutcome.ok src hasStats :: rest)
          = (if hasStats then [CollectorEvent.stats] else [])
            ++ [CollectorEvent.label src, CollectorEvent.sleep 1000]
            ++ socketLoop mr sf 0 1000 rest) := by
  exact ⟨rfl, fun _ _ _ _ _ _ _ => rfl⟩

/-- C10: every `DaemonHealth` the daemon produces — the `GetHealth` response,
the telemetry log line, the `/debug/snapshot` health field and the `/metrics`
export — is built with `get_health(0)`, so its `connected_clients` is 0
regardless of the actual number of open connections. -/
theorem c10_connected_clients_zero (envTok : Option String) (host : Host)
    (hw : JetsonHardware) (now now2 : Nat) (st : DaemonState) (h : HealthTracker) :
    handle_request envTok host hw now Request.GetHealth st
      = (Response.Health (st.health.get_health now 0), st)
    ∧ (st.health.get_health now 0).connected_clients = 0
    ∧ (telemetry_snapshot h now2).connected_clients = 0
    ∧ debug_snapshot_health h now2 = some (h.get_health now2 0)
    ∧ (build_metrics_health h now2).connected_clients = 0 := by
  exact ⟨rfl, rfl, rfl, rfl, rfl⟩

end JetsonScope
